import Mathlib

namespace AutomationCore

/-!
Verification of `electron-automation-core` against its specification.

Shallow embedding of the relevant source modules:
* `GridManager` (src/src/ProfileManager.js, second class) — grid layout engine;
* `ProfileManager` (src/src/ProfileManager.js, first class) — session registry;
* `poll` (src/src/utils.js) — the generic polling wait primitive;
* `Network` / `DialogHandler` / `interceptFileChooser` — feature handlers
  sharing the per-page debugger "message" channel;
* `BrowserManager` (src/unnamed/part_004) — profile orchestration;
* `ElectronPage.waitForNavigation` / `destroy` (src/unnamed/part_002).

JS numbers appearing here are all non-negative integers (sizes, indices,
counters), embedded as `Nat`; `Math.floor (a / b)` on such values is `Nat`
division.  Maps keep JS `Map` insertion order and are embedded as lists.
-/

/-! ## GridManager (src/src/ProfileManager.js, class GridManager) -/

/-- A rectangle as passed to `view.setBounds`. -/
structure Bounds where
  x : Nat
  y : Nat
  w : Nat
  h : Nat
deriving DecidableEq, Repr

/-- A tracked `BrowserView` as the layout engine sees it: its profile id,
its current bounds, and the two `setAutoResize` flags. -/
structure GridView where
  vid : String
  bounds : Bounds
  autoW : Bool
  autoH : Bool
deriving DecidableEq, Repr

/-- State of a `GridManager` instance: the insertion-ordered `_views` map,
`_cols`, `_rows`, `_maximizedId`, and the host window's content size. -/
structure GridState where
  views : List GridView
  cols : Nat
  rows : Nat
  maximizedId : Option String
  canvasW : Nat
  canvasH : Nat
deriving DecidableEq, Repr

/-- `GridManager`'s constructor state: `_cols = 2`, `_rows = 2`,
`_maximizedId = null`, empty `_views` map. -/
def GridState.init (w h : Nat) : GridState :=
  { views := [], cols := 2, rows := 2, maximizedId := none, canvasW := w, canvasH := h }

/-- `_applyLayout()`: recompute and apply bounds to all views.
Maximized branch: the maximized view fills the canvas with auto-resize on,
every other view collapses to zero size.  Non-maximized branch:
`cellWidth = floor(winWidth/cols)`, `cellHeight = floor(winHeight/rows)`;
the view at index `idx` (insertion order) is placed at
`(col = idx % cols, row = idx / cols)` unless `idx >= cols*rows`, in which
case it collapses to zero size. -/
def applyLayout (s : GridState) : GridState :=
  match s.maximizedId with
  | some mid =>
      { s with views := s.views.map (fun v =>
          if v.vid = mid then
            { v with bounds := ⟨0, 0, s.canvasW, s.canvasH⟩, autoW := true, autoH := true }
          else
            { v with bounds := ⟨0, 0, 0, 0⟩, autoW := false, autoH := false }) }
  | none =>
      let cellW := s.canvasW / s.cols
      let cellH := s.canvasH / s.rows
      { s with views := s.views.enum.map (fun iv =>
          if iv.1 ≥ s.cols * s.rows then
            { iv.2 with bounds := ⟨0, 0, 0, 0⟩, autoW := false, autoH := false }
          else
            { iv.2 with
                bounds := ⟨(iv.1 % s.cols) * cellW, (iv.1 / s.cols) * cellH, cellW, cellH⟩,
                autoW := false, autoH := false }) }

/-- `addView(profileId, view)`: `Map.set` — replace in place if the key
exists, else append. -/
def addView (id : String) (v : GridView) (s : GridState) : GridState :=
  if s.views.any (fun u => u.vid = id) then
    { s with views := s.views.map (fun u => if u.vid = id then v else u) }
  else
    { s with views := s.views ++ [v] }

/-- `removeView(profileId)`: drop the key; clear `_maximizedId` if it was
this id. -/
def removeView (id : String) (s : GridState) : GridState :=
  { s with
      views := s.views.filter (fun u => u.vid ≠ id),
      maximizedId := if s.maximizedId = some id then none else s.maximizedId }

/-- `setGrid(cols, rows)`. -/
def setGrid (c r : Nat) (s : GridState) : GridState :=
  applyLayout { s with cols := c, rows := r, maximizedId := none }

/-- The `(cols, rows)` table used by `autoGrid()`, keyed on `_views.size`. -/
def autoGridDims (count : Nat) : Nat × Nat :=
  if count ≤ 1 then (1, 1)
  else if count ≤ 2 then (2, 1)
  else if count ≤ 4 then (2, 2)
  else if count ≤ 6 then (3, 2)
  else if count ≤ 9 then (3, 3)
  else (5, 2)

/-- `autoGrid()`: derive `(cols, rows)` from the view count, clear
`_maximizedId`, re-apply the layout. -/
def autoGrid (s : GridState) : GridState :=
  let d := autoGridDims s.views.length
  applyLayout { s with cols := d.1, rows := d.2, maximizedId := none }

/-- `maximize(profileId)`: no-op when the id is not tracked; otherwise set
`_maximizedId` and re-apply the layout. -/
def maximize (id : String) (s : GridState) : GridState :=
  if s.views.any (fun u => u.vid = id) then
    applyLayout { s with maximizedId := some id }
  else s

/-- `restoreGrid()`: clear `_maximizedId`, re-apply the layout with the
stored `(cols, rows)`. -/
def restoreGrid (s : GridState) : GridState :=
  applyLayout { s with maximizedId := none }

/-- Host-window `resize` handler: re-apply the layout with the new content
size and otherwise unchanged state. -/
def resizeCanvas (w h : Nat) (s : GridState) : GridState :=
  applyLayout { s with canvasW := w, canvasH := h }

/-- The `(cols, rows)` table exactly as the specification words it:
1→1×1, 2→2×1, 3–4→2×2, 5–6→3×2, 7–9→3×3, ≥10→5×2. -/
def specGridTable (n : Nat) : Nat × Nat :=
  if n = 1 then (1, 1)
  else if n = 2 then (2, 1)
  else if 3 ≤ n ∧ n ≤ 4 then (2, 2)
  else if 5 ≤ n ∧ n ≤ 6 then (3, 2)
  else if 7 ≤ n ∧ n ≤ 9 then (3, 3)
  else (5, 2)

/-- A view a surface's visibility is read off from: a surface is visible
iff its bounds have nonzero area. -/
def Bounds.visible (b : Bounds) : Bool :=
  b.w ≠ 0 && b.h ≠ 0

/-- A concrete grid state with four tracked views on a 100×100 canvas. -/
def fourViewGrid : GridState :=
  { views := [⟨"a", ⟨0, 0, 0, 0⟩, false, false⟩, ⟨"b", ⟨0, 0, 0, 0⟩, false, false⟩,
              ⟨"c", ⟨0, 0, 0, 0⟩, false, false⟩, ⟨"d", ⟨0, 0, 0, 0⟩, false, false⟩],
    cols := 2, rows := 2, maximizedId := none, canvasW := 100, canvasH := 100 }

/-- The bounds currently assigned to the view of a given profile id. -/
def viewBounds (s : GridState) (id : String) : Option Bounds :=
  (s.views.find? (fun u => u.vid = id)).map GridView.bounds

/-- A two-view grid state in which view "a" is currently maximized:
built by `addView "a"; addView "b"; setGrid 2 2; maximize "a"` on a
100×100 canvas. -/
def maximizedPairGrid : GridState :=
  maximize "a" (setGrid 2 2
    (addView "b" ⟨"b", ⟨0, 0, 0, 0⟩, false, false⟩
      (addView "a" ⟨"a", ⟨0, 0, 0, 0⟩, false, false⟩ (GridState.init 100 100))))

/-- The four-view grid on a 100×90 canvas, base state for the C6 witness. -/
def fiveGridBase : GridState :=
  { fourViewGrid with canvasH := 90 }

/-! ## poll (src/src/utils.js) and the waits built on it (src/src/Waiter.js)

`poll(fn, timeout, interval)` loops `while (Date.now() - start < timeout)`,
awaiting `fn()` each iteration, returning a truthy result, and sleeping
`interval` ms after a falsy one; exhausting the window throws
`Polling timed out after {timeout}ms`.  The embedding makes time explicit:
the probe is instantaneous, so the elapsed time at the k-th attempt is
`k * interval`.  The `fuel` argument (`timeout + 1`) strictly bounds the
number of iterations and is never exhausted when `interval ≥ 1`.
A probe invocation either throws or produces a value; `none` stands for a
falsy ("not ready") result, `some v` for a truthy one. -/

/-- One probe invocation as JS sees it: an exception, or a value whose
truthiness drives the loop. -/
inductive ProbeStep (α : Type) where
  | throws (msg : String)
  | value (v : Option α)
deriving DecidableEq, Repr

/-- How a `poll` call can fail. -/
inductive PollError where
  | timedOut (timeout : Nat)
  | probeError (msg : String)
deriving DecidableEq, Repr

/-- The `while` loop of `poll`, with explicit fuel. `k` counts attempts
made so far, so the elapsed time at the loop check is `k * interval`.
An exception from `fn` is NOT caught here: it propagates out. -/
def pollFrom (fn : Nat → ProbeStep α) (timeout interval : Nat) :
    Nat → Nat → Except PollError α
  | 0, _ => .error (.timedOut timeout)
  | fuel + 1, k =>
      if k * interval < timeout then
        match fn k with
        | .throws m => .error (.probeError m)
        | .value (some v) => .ok v
        | .value none => pollFrom fn timeout interval fuel (k + 1)
      else .error (.timedOut timeout)

/-- `poll(fn, timeout, interval)` from src/src/utils.js. -/
def poll (fn : Nat → ProbeStep α) (timeout interval : Nat) : Except PollError α :=
  pollFrom fn timeout interval (timeout + 1) 0

/-- The probe shape used by `Waiter.waitForSelector`/`waitForFunction`
(src/src/Waiter.js): the async closure passed to `poll` wraps its body in
`try { ... } catch { return null; }`, so a throwing attempt becomes a
falsy result. -/
def catchToNull (fn : Nat → ProbeStep α) : Nat → ProbeStep α := fun k =>
  match fn k with
  | .throws _ => .value none
  | r => r

/-- A probe that throws on its first `K` invocations and then returns the
truthy value `v`. -/
def throwsThenReturns (K : Nat) (v : α) (msg : String) : Nat → ProbeStep α := fun k =>
  if k < K then .throws msg else .value (some v)

/-! ## Control-channel discipline (src/src/Waiter.js class Network,
src/src/DialogHandler.js, src/unnamed/part_002 interceptFileChooser)

All protocol-level feature handlers of one page subscribe to the same
`webContents.debugger` "message" event and filter by CDP event-method.
Each handler field (`Network._onRequestPaused`,
`ElectronPage._fileChooserListener`, `DialogHandler._onDialog`) remembers
the currently installed closure so it can be removed before a replacement
is installed.  Closures are created fresh at every install, so they are
identified here by a fresh counter; `removeListener(fn)` drops exactly the
registrations of that closure. -/

/-- The CDP event-methods the feature handlers filter on. -/
inductive EventMethod where
  | requestPaused      -- "Fetch.requestPaused"
  | fileChooserOpened  -- "Page.fileChooserOpened"
  | dialogOpening      -- "Page.javascriptDialogOpening"
deriving DecidableEq, Repr

/-- State of one page's shared channel: the emitter's listener list (in
registration order, each listener tagged with the event-method it acts
on), the three handler fields, `DialogHandler._enabled`, and the fresh
closure counter. -/
structure ChannelState where
  listeners : List (Nat × EventMethod)
  onRequestPaused : Option Nat
  fileChooserListener : Option Nat
  onDialog : Option Nat
  dialogEnabled : Bool
  fresh : Nat
deriving DecidableEq, Repr

/-- Page construction: no listeners, all handler fields null. -/
def initChannel : ChannelState :=
  { listeners := [], onRequestPaused := none, fileChooserListener := none,
    onDialog := none, dialogEnabled := false, fresh := 0 }

/-- `debugger.removeListener('message', fn)` for a remembered closure
(`none` = field was null, nothing removed). -/
def removeOpt (l : List (Nat × EventMethod)) : Option Nat → List (Nat × EventMethod)
  | some i => l.filter (fun p => p.1 ≠ i)
  | none => l

/-- The operations of the claim, as they appear in the source. -/
inductive ChannelOp where
  | blockResourceTypes      -- Network.blockResourceTypes (Waiter.js 166-198)
  | interceptRequests       -- Network.interceptRequests (Waiter.js 213-253)
  | interceptFileChooser    -- ElectronPage.interceptFileChooser (part_002 623-654)
  | stopInterceptFileChooser
  | dialogEnable            -- DialogHandler.enable
  | dialogDisable           -- DialogHandler.disable
  | networkDestroy          -- Network.destroy
deriving DecidableEq, Repr

/-- Shared listener management of `blockResourceTypes` and
`interceptRequests`: remove the old `_onRequestPaused` if any, install a
fresh closure, remember it. -/
def installRequestPaused (s : ChannelState) : ChannelState :=
  { s with
      listeners := removeOpt s.listeners s.onRequestPaused ++ [(s.fresh, .requestPaused)],
      onRequestPaused := some s.fresh,
      fresh := s.fresh + 1 }

/-- One channel-affecting call. -/
def chanStep (s : ChannelState) : ChannelOp → ChannelState
  | .blockResourceTypes => installRequestPaused s
  | .interceptRequests => installRequestPaused s
  | .interceptFileChooser =>
      { s with
          listeners :=
            removeOpt s.listeners s.fileChooserListener ++ [(s.fresh, .fileChooserOpened)],
          fileChooserListener := some s.fresh,
          fresh := s.fresh + 1 }
  | .stopInterceptFileChooser =>
      match s.fileChooserListener with
      | some i =>
          { s with listeners := s.listeners.filter (fun p => p.1 ≠ i),
                   fileChooserListener := none }
      | none => s
  | .dialogEnable =>
      if s.dialogEnabled then s
      else
        { s with
            listeners := s.listeners ++ [(s.fresh, .dialogOpening)],
            onDialog := some s.fresh,
            dialogEnabled := true,
            fresh := s.fresh + 1 }
  | .dialogDisable =>
      if s.dialogEnabled then
        match s.onDialog with
        | some i =>
            { s with listeners := s.listeners.filter (fun p => p.1 ≠ i),
                     onDialog := none, dialogEnabled := false }
        | none => { s with onDialog := none, dialogEnabled := false }
      else s
  | .networkDestroy =>
      match s.onRequestPaused with
      | some i =>
          { s with listeners := s.listeners.filter (fun p => p.1 ≠ i),
                   onRequestPaused := none }
      | none => s

/-- Run a call sequence from page construction. -/
def runChannel (ops : List ChannelOp) : ChannelState :=
  ops.foldl chanStep initChannel

/-- The handler field owning a given event-method. -/
def slot (s : ChannelState) : EventMethod → Option Nat
  | .requestPaused => s.onRequestPaused
  | .fileChooserOpened => s.fileChooserListener
  | .dialogOpening => s.onDialog

/-- The registrations a dispatched event of method `m` activates: the
listeners tagged `m` (every "message" listener receives the event, but
only those filtering for `m` act on it). -/
def handlersFor (s : ChannelState) (m : EventMethod) : List (Nat × EventMethod) :=
  s.listeners.filter (fun p => p.2 = m)

/-- What `handlersFor` must equal under the discipline. -/
def slotList (s : ChannelState) (m : EventMethod) : List (Nat × EventMethod) :=
  match slot s m with
  | some i => [(i, m)]
  | none => []

/-- Each registered handler resolves the pending item of its event exactly
once (failRequest/continueRequest, setFileInputFiles, or
handleJavaScriptDialog), so this is the number of resolution attempts one
pending item receives. -/
def resolutionsFor (s : ChannelState) (m : EventMethod) : Nat :=
  (handlersFor s m).length

/-- The discipline's invariant: every event-method's registrations in the
emitter are exactly the one closure its handler field remembers (if any);
remembered closure ids are below the fresh counter and distinct across
fields; `DialogHandler._enabled` tracks its field. -/
structure ChanInv (s : ChannelState) : Prop where
  freshBound : ∀ m i, slot s m = some i → i < s.fresh
  handlers : ∀ m, handlersFor s m = slotList s m
  dialogFlag : s.dialogEnabled = s.onDialog.isSome
  slotsDistinct : ∀ m m' i, m ≠ m' → slot s m = some i → slot s m' = some i → False

/-! ## Pending-item resolution fallbacks
(src/src/Waiter.js class Network, lines 226-251; src/src/DialogHandler.js)

`interceptRequests` installs a `Fetch.requestPaused` listener that awaits
the user handler and then issues exactly one of `Fetch.continueRequest` /
`Fetch.failRequest`; an exception anywhere in the `try` is caught and the
request is continued unmodified.  `DialogHandler.enable` installs a
`Page.javascriptDialogOpening` listener that computes `(accept,
promptText)` — starting from `accept = true` — and issues one
`Page.handleJavaScriptDialog`. -/

/-- A CDP command resolving a pending item. -/
inductive ResolveCmd where
  | continueRequest (url : Option String) (headers : Option (List (String × String)))
  | failRequest  -- errorReason BlockedByClient
  | handleDialog (accept : Bool) (promptText : String)
deriving DecidableEq, Repr

/-- The value an `interceptRequests` user handler produces for one paused
request: a throw, a nullish result, or an object with an `action` field
and optional `url`/`headers`. -/
inductive InterceptOutcome where
  | throws
  | nullish
  | ret (action : String) (url : Option String)
      (headers : Option (List (String × String)))
deriving DecidableEq, Repr

/-- The commands the `Fetch.requestPaused` listener of
`interceptRequests` issues for one paused request, per handler outcome. -/
def interceptResolve (o : InterceptOutcome) : List ResolveCmd :=
  match o with
  | .throws => [.continueRequest none none]
  | .nullish => [.continueRequest none none]
  | .ret action url headers =>
      if action = "continue" then [.continueRequest url headers]
      else if action = "block" then [.failRequest]
      else []

/-- `DialogHandler`'s per-kind auto-accept options (`_defaultOptions`). -/
structure DialogDefaults where
  acceptAlerts : Bool
  acceptConfirms : Bool
  promptText : String
  acceptBeforeUnload : Bool
deriving DecidableEq, Repr

/-- What a custom dialog handler does: absent, throwing, returning a
falsy value, or returning `{accept?, text?}`. -/
inductive DialogHandlerOutcome where
  | noHandler
  | throws
  | falsy
  | ret (accept : Option Bool) (text : Option String)
deriving DecidableEq, Repr

/-- The `(accept, promptText)` pair the `Page.javascriptDialogOpening`
listener computes for a dialog of type `dtype`: `accept` starts `true`,
`promptText` starts at the default; the custom handler (if any) overrides
them, otherwise the switch on the dialog type applies — with no default
case, so an unrecognized type leaves `accept = true`. -/
def dialogDecision (h : DialogHandlerOutcome) (d : DialogDefaults)
    (dtype : String) : Bool × String :=
  match h with
  | .throws => (true, d.promptText)
  | .falsy => (true, d.promptText)
  | .ret a t => (a ≠ some false, t.getD d.promptText)
  | .noHandler =>
      if dtype = "alert" then (d.acceptAlerts, d.promptText)
      else if dtype = "confirm" then (d.acceptConfirms, d.promptText)
      else if dtype = "prompt" then (true, d.promptText)
      else if dtype = "beforeunload" then (d.acceptBeforeUnload, d.promptText)
      else (true, d.promptText)

/-- The single resolution command the dialog listener issues. -/
def dialogResolve (h : DialogHandlerOutcome) (d : DialogDefaults)
    (dtype : String) : List ResolveCmd :=
  [.handleDialog (dialogDecision h d dtype).1 (dialogDecision h d dtype).2]

/-- `DialogHandler.enable`'s option defaults (`acceptAlerts !== false`
etc., `promptText` empty). -/
def stdDialogDefaults : DialogDefaults :=
  { acceptAlerts := true, acceptConfirms := true, promptText := "",
    acceptBeforeUnload := true }

/-! ## ProfileManager.destroy (src/src/ProfileManager.js, lines 50-61)

`destroy(profileId)` looks up the entry (early return if absent), then runs
`clearStorageData(); clearCache(); clearAuthCache()` inside ONE
`try { ... } catch { }`, and finally deletes the map entry.  The embedding
takes one failure flag per sub-step and returns the attempted sub-steps:
a rejection jumps to the catch, skipping the remaining sub-steps, but the
`delete` after the try/catch always runs. -/

/-- The three teardown sub-steps of `ProfileManager.destroy`. -/
inductive SessStep where
  | clearStorage
  | clearCache
  | clearAuthCache
deriving DecidableEq, Repr

/-- `ProfileManager.destroy(id)` given which sub-steps would fail:
returns the remaining registry keys and the list of sub-steps actually
attempted (in order). -/
def sessDestroy (failStorage failCache failAuth : Bool) (l : List String)
    (id : String) : List String × List SessStep :=
  if id ∈ l then
    (l.filter (fun x => x ≠ id),
     SessStep.clearStorage ::
       (if failStorage then []
        else SessStep.clearCache ::
          (if failCache then [] else [SessStep.clearAuthCache])))
  else (l, [])

/-! ## BrowserManager (src/unnamed/part_004) and
ElectronPage.destroy (src/unnamed/part_002, lines 1272-1289)

`createProfile` early-returns the stored page when the id is present;
otherwise it creates the session partition, the BrowserView, the page,
stores the entry, registers the view with the grid and calls `autoGrid`.
`destroyProfile` early-returns for an unknown id; otherwise it runs
`page.destroy()` (remove page listeners, `network.destroy()`,
`dialogs.destroy()`, `downloads.destroy()`, `safeDetachDebugger`), then
`grid.removeView`, `removeBrowserView`, `webContents.close()`,
`profileManager.destroy`, deletes the entry, and re-runs `autoGrid` if
profiles remain. -/

/-- The externally visible teardown actions of `destroyProfile`, in the
order the source can emit them. -/
inductive TeardownStep where
  | pageRemoveListeners
  | pageNetworkDestroy
  | pageDialogsDestroy
  | pageDownloadsDestroy
  | pageDetachDebugger
  | gridRemoveView
  | windowRemoveBrowserView
  | webContentsClose
  | sessionRegistryDestroy
  | gridAutoGrid
deriving DecidableEq, Repr

/-- `ElectronPage.destroy()` on a not-yet-destroyed page: its action
trace.  (`destroy` of an already-destroyed page is an early-return; a
page held in the manager's map has never been destroyed.) -/
def pageDestroySteps : List TeardownStep :=
  [.pageRemoveListeners, .pageNetworkDestroy, .pageDialogsDestroy,
   .pageDownloadsDestroy, .pageDetachDebugger]

/-- The full fixed teardown prefix of `destroyProfile` on a known id:
feature-handler disposal + channel detach (page.destroy), grid
unregistration, window detach, context close, session-registry destroy. -/
def teardownSequence : List TeardownStep :=
  pageDestroySteps ++
    [.gridRemoveView, .windowRemoveBrowserView, .webContentsClose,
     .sessionRegistryDestroy]

/-- State of a `BrowserManager`: its `_profiles` map (id → page handle),
the `ProfileManager`'s registry keys, and the `GridManager`'s tracked ids
and layout parameters. -/
structure MgrState where
  profiles : List (String × Nat)
  pmIds : List String
  gridViews : List String
  cols : Nat
  rows : Nat
  maximizedId : Option String
  nextHandle : Nat
deriving DecidableEq, Repr

/-- `this._profiles.get(id)` (the page handle). -/
def mgrGet (s : MgrState) (id : String) : Option Nat :=
  (s.profiles.find? (fun p => p.1 = id)).map Prod.snd

/-- `BrowserManager.createProfile(id, options)`: early return of the
existing page; otherwise session creation (`Map.set` on the registry),
fresh page handle, entry insertion, grid registration and `autoGrid`. -/
def createProfile (s : MgrState) (id : String) : MgrState × Nat :=
  match mgrGet s id with
  | some h => (s, h)
  | none =>
      let pmIds := if id ∈ s.pmIds then s.pmIds else s.pmIds ++ [id]
      let profiles := s.profiles ++ [(id, s.nextHandle)]
      let gridViews := if id ∈ s.gridViews then s.gridViews else s.gridViews ++ [id]
      let d := autoGridDims gridViews.length
      ({ profiles := profiles, pmIds := pmIds, gridViews := gridViews,
         cols := d.1, rows := d.2, maximizedId := none,
         nextHandle := s.nextHandle + 1 }, s.nextHandle)

/-- `BrowserManager.destroyProfile(id)`: the resulting state and the
teardown-action trace. -/
def destroyProfile (s : MgrState) (id : String) : MgrState × List TeardownStep :=
  match mgrGet s id with
  | none => (s, [])
  | some _ =>
      let grid1 := s.gridViews.filter (fun x => x ≠ id)
      let max1 := if s.maximizedId = some id then none else s.maximizedId
      let pm1 := s.pmIds.filter (fun x => x ≠ id)
      let profiles1 := s.profiles.filter (fun p => p.1 ≠ id)
      let relayout := decide (0 < profiles1.length)
      let d := if relayout then autoGridDims grid1.length else (s.cols, s.rows)
      ({ profiles := profiles1, pmIds := pm1, gridViews := grid1,
         cols := d.1, rows := d.2,
         maximizedId := if relayout then none else max1,
         nextHandle := s.nextHandle },
       teardownSequence ++ (if relayout then [.gridAutoGrid] else []))

/-! ## ElectronPage.waitForNavigation (src/unnamed/part_002, lines 176-206)

The wait registers `onFinish` on 'did-finish-load' and `onFail` on
'did-fail-load' and arms a timer.  `onFinish`/`onFail` (when still
registered and not done) remove BOTH listeners and settle; `onFail`
reinterprets code -3 as success.  The timeout callback, however, only
sets `done` and resolves — it removes nothing, so both listeners stay
registered forever (later events are ignored by the `!done` guard without
removing them). -/

/-- The two subscriptions `waitForNavigation` registers. -/
inductive NavListener where
  | onFinish
  | onFail
deriving DecidableEq, Repr

/-- Events that can reach the pending wait, in arrival order. -/
inductive NavEvent where
  | timeoutFires
  | didFinishLoad
  | didFailLoad (code : Int)
deriving DecidableEq, Repr

/-- How the wait's promise settles. -/
inductive NavOutcome where
  | resolved
  | rejected (code : Int)
deriving DecidableEq, Repr

/-- The wait's closure state: the `done` flag, the listeners currently
registered on the webContents, and the settled outcome (if any). -/
structure NavWaitState where
  done : Bool
  listeners : List NavListener
  outcome : Option NavOutcome
deriving DecidableEq, Repr

/-- State right after `waitForNavigation` subscribes. -/
def navInit : NavWaitState :=
  { done := false, listeners := [.onFinish, .onFail], outcome := none }

/-- One event arriving at the pending wait.  A listener runs only while
registered; its body is guarded by `!done`.  The timeout callback resolves
without any `removeListener` call. -/
def navStep (s : NavWaitState) : NavEvent → NavWaitState
  | .timeoutFires =>
      if s.done then s
      else { s with done := true, outcome := some .resolved }
  | .didFinishLoad =>
      if NavListener.onFinish ∈ s.listeners ∧ ¬s.done then
        { done := true,
          listeners := (s.listeners.filter (fun l => l ≠ .onFinish)).filter
            (fun l => l ≠ .onFail),
          outcome := some .resolved }
      else s
  | .didFailLoad code =>
      if NavListener.onFail ∈ s.listeners ∧ ¬s.done then
        { done := true,
          listeners := (s.listeners.filter (fun l => l ≠ .onFinish)).filter
            (fun l => l ≠ .onFail),
          outcome := some (if code = -3 then .resolved else .rejected code) }
      else s

/-- Run the pending wait over an event arrival order. -/
def runNav (evs : List NavEvent) : NavWaitState :=
  evs.foldl navStep navInit

lemma applyLayout_cols (s : GridState) : (applyLayout s).cols = s.cols := by
  cases h : s.maximizedId <;> simp [applyLayout, h]

lemma applyLayout_rows (s : GridState) : (applyLayout s).rows = s.rows := by
  cases h : s.maximizedId <;> simp [applyLayout, h]

lemma applyLayout_maximizedId (s : GridState) :
    (applyLayout s).maximizedId = s.maximizedId := by
  cases h : s.maximizedId <;> simp [applyLayout, h]

lemma applyLayout_canvasW (s : GridState) : (applyLayout s).canvasW = s.canvasW := by
  cases h : s.maximizedId <;> simp [applyLayout, h]

lemma applyLayout_canvasH (s : GridState) : (applyLayout s).canvasH = s.canvasH := by
  cases h : s.maximizedId <;> simp [applyLayout, h]

/-- C4: for every tracked-surface count `n ≥ 1`, `autoGrid()` sets
`(cols, rows)` exactly per the fixed table of the spec, clears
`maximizedId`, and re-applies the layout. -/
theorem autoGrid_matches_spec_table (s : GridState) (h : 1 ≤ s.views.length) :
    ((autoGrid s).cols, (autoGrid s).rows) = specGridTable s.views.length ∧
    (autoGrid s).maximizedId = none ∧
    autoGrid s =
      applyLayout { s with
        cols := (autoGridDims s.views.length).1,
        rows := (autoGridDims s.views.length).2,
        maximizedId := none } := by
  refine ⟨?_, ?_, rfl⟩
  · show ((applyLayout _).cols, (applyLayout _).rows) = _
    rw [applyLayout_cols, applyLayout_rows]
    show ((autoGridDims s.views.length).1, (autoGridDims s.views.length).2) = _
    unfold autoGridDims specGridTable
    split_ifs <;> first | rfl | omega
  · show (applyLayout _).maximizedId = _
    rw [applyLayout_maximizedId]

lemma applyLayout_views_length (s : GridState) :
    (applyLayout s).views.length = s.views.length := by
  cases h : s.maximizedId <;> simp [applyLayout, h]

lemma applyLayout_views_getElem (s : GridState) (hmax : s.maximizedId = none) (i : Nat) :
    (applyLayout s).views[i]? = (s.views[i]?).map (fun v =>
      if s.cols * s.rows ≤ i then ⟨v.vid, ⟨0, 0, 0, 0⟩, false, false⟩
      else ⟨v.vid,
        ⟨(i % s.cols) * (s.canvasW / s.cols), (i / s.cols) * (s.canvasH / s.rows),
         s.canvasW / s.cols, s.canvasH / s.rows⟩, false, false⟩) := by
  simp only [applyLayout, hmax]
  rw [List.getElem?_map, List.getElem?_enum]
  cases hv : s.views[i]? with
  | none => rfl
  | some v => rfl

lemma applyLayout_ids (s : GridState) :
    (applyLayout s).views.map GridView.vid = s.views.map GridView.vid := by
  cases h : s.maximizedId with
  | none =>
      apply List.ext_getElem?
      intro i
      rw [List.getElem?_map, applyLayout_views_getElem s h i, Option.map_map,
        List.getElem?_map]
      cases hv : s.views[i]? with
      | none => rfl
      | some v =>
          simp only [Option.map_some', Function.comp]
          by_cases hi : s.cols * s.rows ≤ i <;> simp [hi]
  | some mid =>
      simp only [applyLayout, h, List.map_map]
      apply List.map_congr_left
      intro v _
      by_cases hv : v.vid = mid <;> simp [hv]

lemma applyLayout_views_eq_of_ids (x y : GridState)
    (hx : x.maximizedId = none) (hy : y.maximizedId = none)
    (hc : x.cols = y.cols) (hr : x.rows = y.rows)
    (hw : x.canvasW = y.canvasW) (hh : x.canvasH = y.canvasH)
    (hids : x.views.map GridView.vid = y.views.map GridView.vid) :
    (applyLayout x).views = (applyLayout y).views := by
  apply List.ext_getElem?
  intro i
  rw [applyLayout_views_getElem x hx i, applyLayout_views_getElem y hy i]
  have hvid : (x.views[i]?).map GridView.vid = (y.views[i]?).map GridView.vid := by
    have h := congrArg (fun l => l[i]?) hids
    simpa [List.getElem?_map] using h
  cases hvx : x.views[i]? with
  | none =>
      cases hvy : y.views[i]? with
      | none => rfl
      | some w => rw [hvx, hvy] at hvid; simp at hvid
  | some v =>
      cases hvy : y.views[i]? with
      | none => rw [hvx, hvy] at hvid; simp at hvid
      | some w =>
          rw [hvx, hvy] at hvid
          simp only [Option.map_some', Option.some.injEq] at hvid
          simp only [Option.map_some', hc, hr, hw, hh, hvid]

lemma GridState.eq_of_fields {x y : GridState}
    (h1 : x.views = y.views) (h2 : x.cols = y.cols) (h3 : x.rows = y.rows)
    (h4 : x.maximizedId = y.maximizedId)
    (h5 : x.canvasW = y.canvasW) (h6 : x.canvasH = y.canvasH) : x = y := by
  cases x; cases y; simp_all

/-- Witness for C4 at a concrete 4-view grid: `autoGrid` yields (2,2). -/
theorem autoGrid_matches_spec_table_witness :
    ((autoGrid fourViewGrid).cols, (autoGrid fourViewGrid).rows) = specGridTable 4 ∧
    specGridTable 4 = (2, 2) :=
  ⟨(autoGrid_matches_spec_table fourViewGrid (by decide)).1, by decide⟩

/-- Counterexample to C5 as stated ("for every layout state"): starting
from a state in which "a" is already maximized (bounds 100×100),
`maximize "b"` followed by `restoreGrid()` gives "a" its 2×2 grid cell
(0,0,50,50), not the bounds it had before the `maximize "b"` call. -/
theorem maximize_restoreGrid_not_identity_cex :
    viewBounds maximizedPairGrid "a" = some ⟨0, 0, 100, 100⟩ ∧
    viewBounds (restoreGrid (maximize "b" maximizedPairGrid)) "a" = some ⟨0, 0, 50, 50⟩ ∧
    viewBounds (restoreGrid (maximize "b" maximizedPairGrid)) "a" ≠
      viewBounds maximizedPairGrid "a" := by
  refine ⟨by decide, by decide, by decide⟩

/-- C5 (amended): on a state whose bounds have just been recomputed with
`maximizedId` clear — i.e. any state of the form `restoreGrid s` —
`maximize id` on a tracked id followed immediately by `restoreGrid()`
reassigns every surface exactly its prior bounds (the whole grid state is
restored), because `maximize` changes neither `(cols, rows)` nor the
tracked-view order and `restoreGrid` recomputes with them. -/
theorem maximize_restoreGrid_roundtrip (s : GridState) (id : String)
    (h : (restoreGrid s).views.any (fun u => u.vid = id) = true) :
    restoreGrid (maximize id (restoreGrid s)) = restoreGrid s := by
  rw [maximize, if_pos h]
  show applyLayout _ = restoreGrid s
  unfold restoreGrid
  apply GridState.eq_of_fields
  case h1 =>
    apply applyLayout_views_eq_of_ids <;>
      simp [applyLayout_cols, applyLayout_rows, applyLayout_canvasW,
        applyLayout_canvasH, applyLayout_ids]
  all_goals
    simp [applyLayout_cols, applyLayout_rows, applyLayout_maximizedId,
      applyLayout_canvasW, applyLayout_canvasH]

/-- Witness for C5 (amended) at a concrete two-view grid. -/
theorem maximize_restoreGrid_roundtrip_witness :
    restoreGrid (maximize "a" (restoreGrid maximizedPairGrid)) =
      restoreGrid maximizedPairGrid :=
  maximize_restoreGrid_roundtrip maximizedPairGrid "a" (by decide)

/-- C6: in the non-maximized recompute with positive `(cols, rows)`,
cell size is `(floor(canvasW/cols), floor(canvasH/rows))`; the view at
index `i` in registration order gets bounds
`((i % cols)·cellW, (i / cols)·cellH, cellW, cellH)` when `i < cols·rows`,
and zero-size bounds with `visible = false` when `i ≥ cols·rows`; in both
cases the view set (ids, in order, and count) is unchanged — overflowing
views are not dropped. -/
theorem applyLayout_grid_placement (s : GridState) (i : Nat) (v : GridView)
    (hmax : s.maximizedId = none) (hc : 0 < s.cols) (hr : 0 < s.rows)
    (hv : s.views[i]? = some v) :
    (applyLayout s).views.map GridView.vid = s.views.map GridView.vid ∧
    (applyLayout s).views.length = s.views.length ∧
    (i < s.cols * s.rows →
      (applyLayout s).views[i]? = some ⟨v.vid,
        ⟨(i % s.cols) * (s.canvasW / s.cols), (i / s.cols) * (s.canvasH / s.rows),
         s.canvasW / s.cols, s.canvasH / s.rows⟩, false, false⟩) ∧
    (s.cols * s.rows ≤ i →
      (applyLayout s).views[i]? = some ⟨v.vid, ⟨0, 0, 0, 0⟩, false, false⟩ ∧
      Bounds.visible ⟨0, 0, 0, 0⟩ = false) := by
  refine ⟨applyLayout_ids s, applyLayout_views_length s, ?_, ?_⟩
  · intro hi
    rw [applyLayout_views_getElem s hmax i, hv, Option.map_some', if_neg (by omega)]
  · intro hi
    refine ⟨?_, by decide⟩
    rw [applyLayout_views_getElem s hmax i, hv, Option.map_some', if_pos hi]

/-- Witness for C6: a 5-view 2×2 grid on a 100×90 canvas; view index 4
overflows (4 ≥ 2·2) and collapses to zero size, view index 1 gets the
cell (50, 0, 50, 45). -/
theorem applyLayout_grid_placement_witness :
    (applyLayout (addView "e" ⟨"e", ⟨0, 0, 0, 0⟩, false, false⟩ fiveGridBase)).views[4]? =
      some ⟨"e", ⟨0, 0, 0, 0⟩, false, false⟩ ∧
    Bounds.visible ⟨0, 0, 0, 0⟩ = false :=
  (applyLayout_grid_placement (addView "e" ⟨"e", ⟨0, 0, 0, 0⟩, false, false⟩ fiveGridBase)
    4 ⟨"e", ⟨0, 0, 0, 0⟩, false, false⟩ (by decide) (by decide) (by decide) (by decide)).2.2.2
    (by decide)

lemma pollFrom_const_none (timeout interval : Nat) :
    ∀ fuel k, pollFrom (fun _ => ProbeStep.value (none : Option α)) timeout interval fuel k =
      .error (.timedOut timeout) := by
  intro fuel
  induction fuel with
  | zero => intro k; rfl
  | succ n ih =>
      intro k
      by_cases h : k * interval < timeout
      · simp only [pollFrom, if_pos h]
        exact ih (k + 1)
      · simp only [pollFrom, if_neg h]

lemma pollFrom_ok (fn : Nat → ProbeStep α) (timeout interval K : Nat) (v : α)
    (hbefore : ∀ j, j < K → fn j = .value none)
    (hK : fn K = .value (some v)) (hKt : K * interval < timeout) :
    ∀ fuel k, k ≤ K → K - k < fuel →
      pollFrom fn timeout interval fuel k = .ok v := by
  intro fuel
  induction fuel with
  | zero => intro k _ hf; omega
  | succ n ih =>
      intro k hk hf
      have hlt : k * interval < timeout :=
        lt_of_le_of_lt (Nat.mul_le_mul_right interval hk) hKt
      rcases Nat.lt_or_ge k K with hkK | hkK
      · simp only [pollFrom, if_pos hlt, hbefore k hkK]
        exact ih (k + 1) hkK (by omega)
      · have hkeq : k = K := Nat.le_antisymm hk hkK
        subst hkeq
        simp only [pollFrom, if_pos hlt, hK]

/-- Counterexample to C7 as stated: `poll` itself does not treat a probe
exception as "not ready yet".  A probe that throws on its first call and
would return 42 on its second makes `poll` reject with the probe's error
immediately (the claim demands it succeed with 42). -/
theorem poll_propagates_probe_exception_cex :
    poll (throwsThenReturns 1 (42 : Nat) "boom") 1000 100 =
      .error (.probeError "boom") := by
  rfl

/-- C7 (amended): `poll` returns the first truthy value and fails with the
timeout error once the window is exhausted, but a probe exception
propagates and aborts the wait; the "exception = not ready yet, retry"
behaviour belongs to the call-site probes (`waitForSelector`,
`waitForFunction`), which catch and return null — for those waits a probe
body that throws for its first `K` attempts and then yields `v` succeeds
with `v`. -/
theorem poll_amended (K : Nat) (v : Nat) (msg : String) (timeout interval : Nat)
    (hint : 0 < interval) (hK : K * interval < timeout) :
    poll (catchToNull (throwsThenReturns K v msg)) timeout interval = .ok v ∧
    (0 < K → poll (throwsThenReturns K v msg) timeout interval =
      .error (.probeError msg)) ∧
    poll (fun _ => ProbeStep.value (none : Option Nat)) timeout interval =
      .error (.timedOut timeout) := by
  refine ⟨?_, ?_, ?_⟩
  · apply pollFrom_ok (K := K) (v := v)
    · intro j hj
      simp [catchToNull, throwsThenReturns, hj]
    · simp [catchToNull, throwsThenReturns]
    · exact hK
    · exact Nat.zero_le K
    · have h1 : K ≤ K * interval := Nat.le_mul_of_pos_right K hint
      omega
  · intro hKpos
    have h0 : 0 * interval < timeout := by
      have : (0 : Nat) ≤ K * interval := Nat.zero_le _
      omega
    simp only [poll, pollFrom, if_pos h0, throwsThenReturns, if_pos hKpos]
  · exact pollFrom_const_none timeout interval (timeout + 1) 0

/-- Witness for C7 (amended): a probe throwing twice then returning 42,
with `timeout = 1000`, `interval = 100`. -/
theorem poll_amended_witness :
    poll (catchToNull (throwsThenReturns 2 (42 : Nat) "boom")) 1000 100 = .ok 42 ∧
    poll (throwsThenReturns 2 (42 : Nat) "boom") 1000 100 =
      .error (.probeError "boom") ∧
    poll (fun _ => ProbeStep.value (none : Option Nat)) 1000 100 =
      .error (.timedOut 1000) := by
  have h := poll_amended 2 42 "boom" 1000 100 (by decide) (by decide)
  exact ⟨h.1, h.2.1 (by decide), h.2.2⟩

lemma chanInv_init : ChanInv initChannel := by
  refine ⟨?_, ?_, rfl, ?_⟩
  · intro m i h; cases m <;> simp [slot, initChannel] at h
  · intro m; cases m <;> rfl
  · intro m m' i _ h; cases m <;> simp [slot, initChannel] at h

lemma handlersFor_filter_ne (l : List (Nat × EventMethod)) (i : Nat) (m : EventMethod) :
    (l.filter (fun p => p.1 ≠ i)).filter (fun p => p.2 = m) =
      (l.filter (fun p => p.2 = m)).filter (fun p => p.1 ≠ i) :=
  List.filter_comm _ _ _

lemma chanInv_installRequestPaused {s : ChannelState} (hs : ChanInv s) :
    ChanInv (installRequestPaused s) := by
  obtain ⟨hfb, hh, hdf, hsd⟩ := hs
  have hfilterReq :
      (removeOpt s.listeners s.onRequestPaused).filter
        (fun p => p.2 = EventMethod.requestPaused) = [] := by
    cases ho : s.onRequestPaused with
    | none =>
        have := hh .requestPaused
        simp only [handlersFor, slotList, slot, ho] at this
        simpa [removeOpt] using this
    | some i =>
        have := hh .requestPaused
        simp only [handlersFor, slotList, slot, ho] at this
        simp only [removeOpt, handlersFor_filter_ne, this]
        simp
  have hfilterOther : ∀ m, m ≠ EventMethod.requestPaused →
      (removeOpt s.listeners s.onRequestPaused).filter (fun p => p.2 = m) =
        slotList s m := by
    intro m hm
    cases ho : s.onRequestPaused with
    | none =>
        have := hh m
        simpa [removeOpt, handlersFor] using this
    | some i =>
        have hsl := hh m
        simp only [handlersFor] at hsl
        simp only [removeOpt, handlersFor_filter_ne, hsl]
        cases hsm : slot s m with
        | none => simp [slotList, hsm]
        | some j =>
            have hji : j ≠ i := by
              intro hji
              exact hsd m .requestPaused i hm (hji ▸ hsm) (by simp [slot, ho])
            simp [slotList, hsm, hji]
  refine ⟨?_, ?_, ?_, ?_⟩
  · intro m i h
    cases m with
    | requestPaused =>
        simp only [installRequestPaused, slot, Option.some.injEq] at h
        simp only [installRequestPaused]
        omega
    | fileChooserOpened =>
        simp only [installRequestPaused, slot] at h
        simp only [installRequestPaused]
        exact Nat.lt_succ_of_lt (hfb .fileChooserOpened i h)
    | dialogOpening =>
        simp only [installRequestPaused, slot] at h
        simp only [installRequestPaused]
        exact Nat.lt_succ_of_lt (hfb .dialogOpening i h)
  · intro m
    cases m with
    | requestPaused =>
        simp only [handlersFor, installRequestPaused, List.filter_append, hfilterReq,
          slotList, slot]
        simp
    | fileChooserOpened =>
        have h := hfilterOther .fileChooserOpened (by simp)
        simp only [handlersFor, installRequestPaused, List.filter_append, h]
        have : slotList { s with
            listeners := removeOpt s.listeners s.onRequestPaused ++
              [(s.fresh, EventMethod.requestPaused)],
            onRequestPaused := some s.fresh,
            fresh := s.fresh + 1 } EventMethod.fileChooserOpened =
            slotList s EventMethod.fileChooserOpened := by
          simp [slotList, slot]
        rw [this]
        simp
    | dialogOpening =>
        have h := hfilterOther .dialogOpening (by simp)
        simp only [handlersFor, installRequestPaused, List.filter_append, h]
        have : slotList { s with
            listeners := removeOpt s.listeners s.onRequestPaused ++
              [(s.fresh, EventMethod.requestPaused)],
            onRequestPaused := some s.fresh,
            fresh := s.fresh + 1 } EventMethod.dialogOpening =
            slotList s EventMethod.dialogOpening := by
          simp [slotList, slot]
        rw [this]
        simp
  · simpa [installRequestPaused] using hdf
  · intro m m' i hmm hm hm'
    cases m <;> cases m' <;> simp only [installRequestPaused, slot] at hm hm'
    case requestPaused.requestPaused => exact hmm rfl
    case fileChooserOpened.fileChooserOpened => exact hmm rfl
    case dialogOpening.dialogOpening => exact hmm rfl
    case requestPaused.fileChooserOpened =>
        simp only [Option.some.injEq] at hm
        have := hfb .fileChooserOpened i hm'
        omega
    case requestPaused.dialogOpening =>
        simp only [Option.some.injEq] at hm
        have := hfb .dialogOpening i hm'
        omega
    case fileChooserOpened.requestPaused =>
        simp only [Option.some.injEq] at hm'
        have := hfb .fileChooserOpened i hm
        omega
    case dialogOpening.requestPaused =>
        simp only [Option.some.injEq] at hm'
        have := hfb .dialogOpening i hm
        omega
    case fileChooserOpened.dialogOpening =>
        exact hsd .fileChooserOpened .dialogOpening i hmm hm hm'
    case dialogOpening.fileChooserOpened =>
        exact hsd .dialogOpening .fileChooserOpened i hmm hm hm'

lemma filter_remove_slot {s : ChannelState} (hs : ChanInv s) (m0 : EventMethod)
    (i : Nat) (hi : slot s m0 = some i) (m : EventMethod) :
    (s.listeners.filter (fun p => p.1 ≠ i)).filter (fun p => p.2 = m) =
      if m = m0 then [] else slotList s m := by
  rw [handlersFor_filter_ne]
  have hsl := hs.handlers m
  simp only [handlersFor] at hsl
  rw [hsl]
  by_cases hm : m = m0
  · subst hm
    simp [slotList, hi]
  · cases hsm : slot s m with
    | none => simp [slotList, hsm, hm]
    | some j =>
        have hji : j ≠ i := by
          intro hji
          exact hs.slotsDistinct m m0 i hm (hji ▸ hsm) hi
        simp [slotList, hsm, hm, hji]

lemma filter_removeOpt_slot {s : ChannelState} (hs : ChanInv s) (m0 m : EventMethod) :
    (removeOpt s.listeners (slot s m0)).filter (fun p => p.2 = m) =
      if m = m0 then [] else slotList s m := by
  cases h0 : slot s m0 with
  | none =>
      have hsl := hs.handlers m
      simp only [handlersFor] at hsl
      by_cases hm : m = m0
      · subst hm
        simp [removeOpt, hsl, slotList, h0]
      · simp [removeOpt, hsl, hm]
  | some i => exact filter_remove_slot hs m0 i h0 m

lemma chanInv_installFileChooser {s : ChannelState} (hs : ChanInv s) :
    ChanInv (chanStep s .interceptFileChooser) := by
  have hrm := filter_removeOpt_slot hs .fileChooserOpened
  refine ⟨?_, ?_, ?_, ?_⟩
  · intro m i h
    cases m with
    | fileChooserOpened =>
        simp only [chanStep, slot, Option.some.injEq] at h
        simp only [chanStep]
        omega
    | requestPaused =>
        simp only [chanStep, slot] at h
        simp only [chanStep]
        exact Nat.lt_succ_of_lt (hs.freshBound .requestPaused i h)
    | dialogOpening =>
        simp only [chanStep, slot] at h
        simp only [chanStep]
        exact Nat.lt_succ_of_lt (hs.freshBound .dialogOpening i h)
  · intro m
    have hrm' := hrm m
    rw [show slot s EventMethod.fileChooserOpened = s.fileChooserListener from rfl] at hrm'
    cases m with
    | fileChooserOpened =>
        rw [if_pos rfl] at hrm'
        simp only [handlersFor, chanStep, List.filter_append, hrm', slotList, slot]
        simp
    | requestPaused =>
        rw [if_neg (by simp)] at hrm'
        simp only [handlersFor, chanStep, List.filter_append, hrm']
        show slotList s EventMethod.requestPaused ++ _ = slotList s EventMethod.requestPaused
        simp
    | dialogOpening =>
        rw [if_neg (by simp)] at hrm'
        simp only [handlersFor, chanStep, List.filter_append, hrm']
        show slotList s EventMethod.dialogOpening ++ _ = slotList s EventMethod.dialogOpening
        simp
  · simpa [chanStep] using hs.dialogFlag
  · intro m m' i hmm hm hm'
    cases m <;> cases m' <;> simp only [chanStep, slot] at hm hm'
    case requestPaused.requestPaused => exact hmm rfl
    case fileChooserOpened.fileChooserOpened => exact hmm rfl
    case dialogOpening.dialogOpening => exact hmm rfl
    case fileChooserOpened.requestPaused =>
        simp only [Option.some.injEq] at hm
        have := hs.freshBound .requestPaused i hm'
        omega
    case fileChooserOpened.dialogOpening =>
        simp only [Option.some.injEq] at hm
        have := hs.freshBound .dialogOpening i hm'
        omega
    case requestPaused.fileChooserOpened =>
        simp only [Option.some.injEq] at hm'
        have := hs.freshBound .requestPaused i hm
        omega
    case dialogOpening.fileChooserOpened =>
        simp only [Option.some.injEq] at hm'
        have := hs.freshBound .dialogOpening i hm
        omega
    case requestPaused.dialogOpening =>
        exact hs.slotsDistinct .requestPaused .dialogOpening i hmm hm hm'
    case dialogOpening.requestPaused =>
        exact hs.slotsDistinct .dialogOpening .requestPaused i hmm hm hm'

lemma chanInv_stopChooser {s : ChannelState} (hs : ChanInv s) :
    ChanInv (chanStep s .stopInterceptFileChooser) := by
  cases hf : s.fileChooserListener with
  | none =>
      have hstate : chanStep s .stopInterceptFileChooser = s := by
        simp [chanStep, hf]
      rw [hstate]; exact hs
  | some i =>
      have hstate : chanStep s .stopInterceptFileChooser =
          { s with listeners := s.listeners.filter (fun p => p.1 ≠ i),
                   fileChooserListener := none } := by
        simp [chanStep, hf]
      rw [hstate]
      have hrm := filter_remove_slot hs .fileChooserOpened i (by simp [slot, hf])
      have hsub : ∀ m j,
          slot { s with listeners := s.listeners.filter (fun p => p.1 ≠ i),
                        fileChooserListener := none } m = some j →
          slot s m = some j := by
        intro m j h
        cases m with
        | fileChooserOpened => simp [slot] at h
        | requestPaused => exact h
        | dialogOpening => exact h
      refine ⟨?_, ?_, ?_, ?_⟩
      · intro m j h
        exact hs.freshBound m j (hsub m j h)
      · intro m
        have h' := hrm m
        cases m with
        | fileChooserOpened =>
            rw [if_pos rfl] at h'
            exact h'
        | requestPaused =>
            rw [if_neg (by simp)] at h'
            exact h'
        | dialogOpening =>
            rw [if_neg (by simp)] at h'
            exact h'
      · exact hs.dialogFlag
      · intro m m' j hmm hm hm'
        exact hs.slotsDistinct m m' j hmm (hsub m j hm) (hsub m' j hm')

lemma chanInv_networkDestroy {s : ChannelState} (hs : ChanInv s) :
    ChanInv (chanStep s .networkDestroy) := by
  cases hf : s.onRequestPaused with
  | none =>
      have hstate : chanStep s .networkDestroy = s := by
        simp [chanStep, hf]
      rw [hstate]; exact hs
  | some i =>
      have hstate : chanStep s .networkDestroy =
          { s with listeners := s.listeners.filter (fun p => p.1 ≠ i),
                   onRequestPaused := none } := by
        simp [chanStep, hf]
      rw [hstate]
      have hrm := filter_remove_slot hs .requestPaused i (by simp [slot, hf])
      have hsub : ∀ m j,
          slot { s with listeners := s.listeners.filter (fun p => p.1 ≠ i),
                        onRequestPaused := none } m = some j →
          slot s m = some j := by
        intro m j h
        cases m with
        | requestPaused => simp [slot] at h
        | fileChooserOpened => exact h
        | dialogOpening => exact h
      refine ⟨?_, ?_, ?_, ?_⟩
      · intro m j h
        exact hs.freshBound m j (hsub m j h)
      · intro m
        have h' := hrm m
        cases m with
        | requestPaused =>
            rw [if_pos rfl] at h'
            exact h'
        | fileChooserOpened =>
            rw [if_neg (by simp)] at h'
            exact h'
        | dialogOpening =>
            rw [if_neg (by simp)] at h'
            exact h'
      · exact hs.dialogFlag
      · intro m m' j hmm hm hm'
        exact hs.slotsDistinct m m' j hmm (hsub m j hm) (hsub m' j hm')

lemma chanInv_dialogDisable {s : ChannelState} (hs : ChanInv s) :
    ChanInv (chanStep s .dialogDisable) := by
  cases he : s.dialogEnabled with
  | false =>
      have hstate : chanStep s .dialogDisable = s := by
        simp [chanStep, he]
      rw [hstate]; exact hs
  | true =>
      have hsome : s.onDialog.isSome := by rw [← hs.dialogFlag]; exact he
      cases hd : s.onDialog with
      | none => rw [hd] at hsome; simp at hsome
      | some i =>
          have hstate : chanStep s .dialogDisable =
              { s with listeners := s.listeners.filter (fun p => p.1 ≠ i),
                       onDialog := none, dialogEnabled := false } := by
            simp [chanStep, he, hd]
          rw [hstate]
          have hrm := filter_remove_slot hs .dialogOpening i (by simp [slot, hd])
          have hsub : ∀ m j,
              slot { s with listeners := s.listeners.filter (fun p => p.1 ≠ i),
                            onDialog := none, dialogEnabled := false } m = some j →
              slot s m = some j := by
            intro m j h
            cases m with
            | dialogOpening => simp [slot] at h
            | fileChooserOpened => exact h
            | requestPaused => exact h
          refine ⟨?_, ?_, ?_, ?_⟩
          · intro m j h
            exact hs.freshBound m j (hsub m j h)
          · intro m
            have h' := hrm m
            cases m with
            | dialogOpening =>
                rw [if_pos rfl] at h'
                exact h'
            | requestPaused =>
                rw [if_neg (by simp)] at h'
                exact h'
            | fileChooserOpened =>
                rw [if_neg (by simp)] at h'
                exact h'
          · rfl
          · intro m m' j hmm hm hm'
            exact hs.slotsDistinct m m' j hmm (hsub m j hm) (hsub m' j hm')

lemma chanInv_dialogEnable {s : ChannelState} (hs : ChanInv s) :
    ChanInv (chanStep s .dialogEnable) := by
  cases he : s.dialogEnabled with
  | true =>
      have hstate : chanStep s .dialogEnable = s := by
        simp [chanStep, he]
      rw [hstate]; exact hs
  | false =>
      have hnone : s.onDialog = none := by
        have := hs.dialogFlag
        rw [he] at this
        cases hd : s.onDialog with
        | none => rfl
        | some i => rw [hd] at this; simp at this
      have hstate : chanStep s .dialogEnable =
          { s with listeners := s.listeners ++ [(s.fresh, .dialogOpening)],
                   onDialog := some s.fresh, dialogEnabled := true,
                   fresh := s.fresh + 1 } := by
        simp [chanStep, he]
      rw [hstate]
      refine ⟨?_, ?_, ?_, ?_⟩
      · intro m j h
        cases m with
        | dialogOpening =>
            simp only [slot, Option.some.injEq] at h
            show j < s.fresh + 1
            omega
        | requestPaused =>
            exact Nat.lt_succ_of_lt (hs.freshBound .requestPaused j h)
        | fileChooserOpened =>
            exact Nat.lt_succ_of_lt (hs.freshBound .fileChooserOpened j h)
      · intro m
        have h' := hs.handlers m
        simp only [handlersFor] at h'
        cases m with
        | dialogOpening =>
            have hempty : slotList s .dialogOpening = [] := by
              simp [slotList, slot, hnone]
            rw [hempty] at h'
            show (s.listeners ++ [(s.fresh, EventMethod.dialogOpening)]).filter _ = _
            rw [List.filter_append, h']
            simp [slotList, slot]
        | requestPaused =>
            show (s.listeners ++ [(s.fresh, EventMethod.dialogOpening)]).filter _ = _
            rw [List.filter_append, h']
            show slotList s EventMethod.requestPaused ++ _ =
              slotList s EventMethod.requestPaused
            simp
        | fileChooserOpened =>
            show (s.listeners ++ [(s.fresh, EventMethod.dialogOpening)]).filter _ = _
            rw [List.filter_append, h']
            show slotList s EventMethod.fileChooserOpened ++ _ =
              slotList s EventMethod.fileChooserOpened
            simp
      · rfl
      · intro m m' j hmm hm hm'
        cases m <;> cases m' <;> simp only [slot, Option.some.injEq] at hm hm'
        case requestPaused.requestPaused => exact hmm rfl
        case fileChooserOpened.fileChooserOpened => exact hmm rfl
        case dialogOpening.dialogOpening => exact hmm rfl
        case dialogOpening.requestPaused =>
            have := hs.freshBound .requestPaused j hm'
            omega
        case dialogOpening.fileChooserOpened =>
            have := hs.freshBound .fileChooserOpened j hm'
            omega
        case requestPaused.dialogOpening =>
            have := hs.freshBound .requestPaused j hm
            omega
        case fileChooserOpened.dialogOpening =>
            have := hs.freshBound .fileChooserOpened j hm
            omega
        case requestPaused.fileChooserOpened =>
            exact hs.slotsDistinct .requestPaused .fileChooserOpened j hmm hm hm'
        case fileChooserOpened.requestPaused =>
            exact hs.slotsDistinct .fileChooserOpened .requestPaused j hmm hm hm'

lemma chanInv_step {s : ChannelState} (hs : ChanInv s) (op : ChannelOp) :
    ChanInv (chanStep s op) := by
  cases op with
  | blockResourceTypes => exact chanInv_installRequestPaused hs
  | interceptRequests => exact chanInv_installRequestPaused hs
  | interceptFileChooser => exact chanInv_installFileChooser hs
  | stopInterceptFileChooser => exact chanInv_stopChooser hs
  | dialogEnable => exact chanInv_dialogEnable hs
  | dialogDisable => exact chanInv_dialogDisable hs
  | networkDestroy => exact chanInv_networkDestroy hs

lemma chanInv_run (ops : List ChannelOp) : ChanInv (runChannel ops) := by
  have h : ∀ s, ChanInv s → ChanInv (ops.foldl chanStep s) := by
    induction ops with
    | nil => intro s hs; exact hs
    | cons op rest ih => intro s hs; exact ih (chanStep s op) (chanInv_step hs op)
  exact h initChannel chanInv_init

/-- C1: after any sequence of handler (re)registrations and removals on
the shared channel, each event-method has at most one active registration
— a later registration for the same method removed the earlier one — so a
pending item dispatched for that method is resolved by at most one
handler and is never double-resolved. -/
theorem channel_at_most_one_handler_per_method (ops : List ChannelOp) (m : EventMethod) :
    resolutionsFor (runChannel ops) m ≤ 1 := by
  have h := (chanInv_run ops).handlers m
  unfold resolutionsFor
  rw [h]
  unfold slotList
  cases slot (runChannel ops) m <;> simp

/-- Counterexample to C9 as stated: a dialog whose type is not one of the
recognized kinds (here "filepicker") is ACCEPTED — `accept` keeps its
initial value `true` because the switch has no default case — not denied
as the claim says. -/
theorem unrecognized_dialog_accepted_cex :
    dialogDecision .noHandler stdDialogDefaults "filepicker" = (true, "") ∧
    dialogResolve .noHandler stdDialogDefaults "filepicker" =
      [.handleDialog true ""] := by
  exact ⟨rfl, rfl⟩

/-- C9 (amended): a network interception handler that throws results in
the paused request being continued unmodified, and a dialog whose type is
not one of the recognized kinds is ACCEPTED (the initial `accept = true`
survives the defaultless switch) rather than denied; in both cases
exactly one resolution command is issued for the pending item. -/
theorem resolution_fallbacks (d : DialogDefaults) (dtype : String)
    (h1 : dtype ≠ "alert") (h2 : dtype ≠ "confirm")
    (h3 : dtype ≠ "prompt") (h4 : dtype ≠ "beforeunload") :
    interceptResolve .throws = [.continueRequest none none] ∧
    (interceptResolve .throws).length = 1 ∧
    dialogResolve .noHandler d dtype = [.handleDialog true d.promptText] ∧
    (dialogResolve .noHandler d dtype).length = 1 := by
  refine ⟨rfl, rfl, ?_, ?_⟩
  · unfold dialogResolve dialogDecision
    rw [if_neg h1, if_neg h2, if_neg h3, if_neg h4]
  · rfl

/-- Witness for C9 (amended) at the unrecognized dialog type
"filepicker" with the standard defaults. -/
theorem resolution_fallbacks_witness :
    interceptResolve .throws = [.continueRequest none none] ∧
    dialogResolve .noHandler stdDialogDefaults "filepicker" =
      [.handleDialog true ""] := by
  have h := resolution_fallbacks stdDialogDefaults "filepicker"
    (by decide) (by decide) (by decide) (by decide)
  exact ⟨h.1, h.2.2.1⟩

/-- Counterexample to C10 as stated: when `clearStorageData` rejects, the
single surrounding `try` jumps to the catch and `clearCache` /
`clearAuthCache` are NOT attempted — the sub-steps are not independently
best-effort.  (The entry is still removed.) -/
theorem session_destroy_single_try_cex :
    sessDestroy true false false ["p1"] "p1" = ([], [SessStep.clearStorage]) ∧
    SessStep.clearCache ∉ (sessDestroy true false false ["p1"] "p1").2 := by
  exact ⟨by decide, by decide⟩

/-- C10 (amended): the three sub-steps run in sequence inside a single
`try`: a failure in an earlier sub-step skips the remaining ones; but the
registry entry is always removed by the time `destroy(id)` returns,
whichever sub-steps failed, and `destroy` of an unknown id is a no-op. -/
theorem session_destroy_amended (fs fc fa : Bool) (l : List String) (id : String) :
    id ∉ (sessDestroy fs fc fa l id).1 ∧
    (id ∈ l → fs = true →
      (sessDestroy fs fc fa l id).2 = [SessStep.clearStorage]) ∧
    (id ∈ l → fs = false → fc = true →
      (sessDestroy fs fc fa l id).2 = [SessStep.clearStorage, SessStep.clearCache]) ∧
    (id ∈ l → fs = false → fc = false →
      (sessDestroy fs fc fa l id).2 =
        [SessStep.clearStorage, SessStep.clearCache, SessStep.clearAuthCache]) ∧
    (id ∉ l → sessDestroy fs fc fa l id = (l, [])) := by
  refine ⟨?_, ?_, ?_, ?_, ?_⟩
  · by_cases hid : id ∈ l
    · simp [sessDestroy, hid, List.mem_filter]
    · simp [sessDestroy, hid]
  · intro hid hfs
    subst hfs
    simp [sessDestroy, hid]
  · intro hid hfs hfc
    subst hfs; subst hfc
    simp [sessDestroy, hid]
  · intro hid hfs hfc
    subst hfs; subst hfc
    simp [sessDestroy, hid]
  · intro hid
    simp [sessDestroy, hid]

/-- Witness for C10 (amended): entry "p1" with a failing storage clear —
only `clearStorage` is attempted, yet the entry is gone. -/
theorem session_destroy_amended_witness :
    "p1" ∉ (sessDestroy true false false ["p1"] "p1").1 ∧
    (sessDestroy true false false ["p1"] "p1").2 = [SessStep.clearStorage] := by
  have h := session_destroy_amended true false false ["p1"] "p1"
  exact ⟨h.1, h.2.1 (by decide) rfl⟩

/-- C3: `createProfile` is idempotent in the id.  For an id already in
the map the stored handle is returned and the whole manager state —
profile map, session registry, grid-tracked surfaces — is untouched; in
particular a second call right after any first call returns the handle
the first call produced, with no duplicate surface. -/
theorem createProfile_idempotent (s : MgrState) (id : String) (h : Nat)
    (hid : mgrGet s id = some h) :
    createProfile s id = (s, h) ∧
    (createProfile s id).1.profiles = s.profiles ∧
    (createProfile s id).1.pmIds = s.pmIds ∧
    (createProfile s id).1.gridViews = s.gridViews := by
  have hmain : createProfile s id = (s, h) := by
    unfold createProfile
    rw [hid]
  exact ⟨hmain, by rw [hmain], by rw [hmain], by rw [hmain]⟩

/-- Witness for C3: a manager already holding "p1" with handle 7. -/
theorem createProfile_idempotent_witness :
    createProfile
      { profiles := [("p1", 7)], pmIds := ["p1"], gridViews := ["p1"],
        cols := 1, rows := 1, maximizedId := none, nextHandle := 8 } "p1" =
      ({ profiles := [("p1", 7)], pmIds := ["p1"], gridViews := ["p1"],
         cols := 1, rows := 1, maximizedId := none, nextHandle := 8 }, 7) :=
  (createProfile_idempotent _ "p1" 7 (by decide)).1

/-- C2: `destroyProfile` on an unknown id is a no-op; on a known id the
teardown trace is exactly `teardownSequence` (page.destroy's
feature-handler disposal ending in the debugger detach, then grid
unregistration, then window detach, then context close, then
session-registry destroy), followed only by the conditional re-layout —
in particular the channel detach occurs strictly before the context
close. -/
theorem destroyProfile_teardown_order (s : MgrState) (id : String) :
    (mgrGet s id = none → destroyProfile s id = (s, [])) ∧
    (mgrGet s id ≠ none →
      ((destroyProfile s id).2 = teardownSequence ∨
        (destroyProfile s id).2 = teardownSequence ++ [.gridAutoGrid]) ∧
      ∃ pre mid post, (destroyProfile s id).2 =
        pre ++ TeardownStep.pageDetachDebugger ::
          (mid ++ TeardownStep.webContentsClose :: post)) := by
  constructor
  · intro hnone
    unfold destroyProfile
    rw [hnone]
  · intro hsome
    cases hv : mgrGet s id with
    | none => exact absurd hv hsome
    | some hdl =>
        have htrace : (destroyProfile s id).2 =
            teardownSequence ++
              (if decide (0 < (s.profiles.filter (fun p => p.1 ≠ id)).length)
               then [TeardownStep.gridAutoGrid] else []) := by
          unfold destroyProfile
          rw [hv]
        constructor
        · rw [htrace]
          by_cases hr : decide (0 < (s.profiles.filter (fun p => p.1 ≠ id)).length) = true
          · right; rw [if_pos hr]
          · left
            rw [if_neg hr]
            simp
        · refine ⟨[TeardownStep.pageRemoveListeners, .pageNetworkDestroy,
            .pageDialogsDestroy, .pageDownloadsDestroy],
            [TeardownStep.gridRemoveView, .windowRemoveBrowserView],
            TeardownStep.sessionRegistryDestroy ::
              (if decide (0 < (s.profiles.filter (fun p => p.1 ≠ id)).length)
               then [TeardownStep.gridAutoGrid] else []), ?_⟩
          rw [htrace]
          by_cases hr : decide (0 < (s.profiles.filter (fun p => p.1 ≠ id)).length) = true
          · rw [if_pos hr]
            rfl
          · rw [if_neg hr]
            rfl

/-- Witness for C2: a two-profile manager; destroying "p1" emits the full
ordered teardown sequence plus the re-layout, and detaches the debugger
(index 4) before closing the webContents (index 7). -/
theorem destroyProfile_teardown_order_witness :
    (destroyProfile
      { profiles := [("p1", 0), ("p2", 1)], pmIds := ["p1", "p2"],
        gridViews := ["p1", "p2"], cols := 2, rows := 1, maximizedId := none,
        nextHandle := 2 } "p1").2 =
      teardownSequence ++ [TeardownStep.gridAutoGrid] := by
  have h := (destroyProfile_teardown_order
    { profiles := [("p1", 0), ("p2", 1)], pmIds := ["p1", "p2"],
      gridViews := ["p1", "p2"], cols := 2, rows := 1, maximizedId := none,
      nextHandle := 2 } "p1").2 (by decide)
  rcases h.1 with heq | heq
  · exact absurd heq (by decide)
  · exact heq

/-- C8 at its failing input: when the timeout fires before any
navigation event, `waitForNavigation` settles (resolves) but leaves BOTH
subscriptions registered — and they are never removed afterwards, since a
later event is ignored by the `done` guard without unsubscribing.  The
event paths, by contrast, do remove both subscriptions before settling
(success, aborted-by-redirect code -3 as success, other codes as
rejection). -/
theorem waitForNavigation_timeout_leaks_listeners :
    (runNav [.timeoutFires]).outcome = some .resolved ∧
    (runNav [.timeoutFires]).listeners = [.onFinish, .onFail] ∧
    (runNav [.timeoutFires, .didFinishLoad]).listeners = [.onFinish, .onFail] ∧
    (runNav [.timeoutFires, .didFailLoad (-3)]).listeners = [.onFinish, .onFail] ∧
    (runNav [.didFinishLoad]).outcome = some .resolved ∧
    (runNav [.didFinishLoad]).listeners = [] ∧
    (runNav [.didFailLoad (-3)]).outcome = some .resolved ∧
    (runNav [.didFailLoad (-3)]).listeners = [] ∧
    (runNav [.didFailLoad 404]).outcome = some (.rejected 404) ∧
    (runNav [.didFailLoad 404]).listeners = [] := by
  decide

end AutomationCore
